import Mathlib

/-!
Shallow embedding of `download_drive.py` (google-drive-downloader).

The program is a linear flow: `authenticate` produces an authorized client,
`download_all_files` paginates through the provider listing and writes each
non-native file to disk, and `main` dispatches both under one try/except that
exits 1 on any escaping exception.

External effects are modelled as explicit data:
  * the token store / client-secret files become fields of `AuthEnv`;
  * the provider's listing endpoint becomes a list of per-call results
    (`Except Unit Page`), one entry per successive `files().list` call;
  * a single file transfer (`get_media` + chunk loop into an `open(path,'wb')`
    handle) becomes a `TransferOutcome` oracle;
  * the local disk is an association list from path to content where the most
    recent write shadows older ones.
-/

namespace DriveDownloader

/-- Token material as held in the token store: the fields of the Python
credential object that `authenticate` inspects (`valid`, `expired`,
`refresh_token`), plus an opaque tag distinguishing credential values. -/
structure Credential where
  valid : Bool
  expired : Bool
  refresh_token : Bool
  tag : Nat
  deriving DecidableEq, Repr

/-- What `pickle.load` on the token file yields: either it raises on
malformed content, or it returns a credential. -/
inductive LoadOutcome where
  | corrupt
  | loaded (c : Credential)
  deriving DecidableEq, Repr

/-- The environment `authenticate` runs in: filesystem state and the
provider's responses to a refresh exchange and to the interactive flow. -/
structure AuthEnv where
  token_file_exists : Bool
  token_file_content : LoadOutcome
  credentials_file_exists : Bool
  refresh_result : Except Unit Credential
  flow_result : Credential
  deriving Repr

/-- The exceptions `authenticate` can raise (all uncaught inside it). -/
inductive AuthErr where
  | corruptToken
  | refreshRejected
  | credentialsFileNotFound
  deriving DecidableEq, Repr

/-- Observable outcome of a successful `authenticate` call: the credential
the client is built from, whether the interactive flow ran, whether a
refresh exchange ran, and whether the token file was (re)written. -/
structure AuthResult where
  creds : Credential
  ran_interactive_flow : Bool
  refreshed : Bool
  wrote_token_file : Bool
  deriving DecidableEq, Repr

/-- The `else` branch of `authenticate`: `InstalledAppFlow` after the
existence check on the credentials file (`raise FileNotFoundError` when
absent), followed by the token save. -/
def newFlow (env : AuthEnv) : Except AuthErr AuthResult :=
  if !env.credentials_file_exists then
    Except.error AuthErr.credentialsFileNotFound
  else
    Except.ok { creds := env.flow_result, ran_interactive_flow := true,
                refreshed := false, wrote_token_file := true }

/-- Body of `authenticate` after the token load: `if not creds or not
creds.valid:` — refresh when `creds and creds.expired and creds.refresh_token`,
otherwise run the interactive flow; save the token after either; return the
loaded credential untouched (no save) when it is valid. -/
def authFromCreds (env : AuthEnv) : Option Credential → Except AuthErr AuthResult
  | some c =>
    if c.valid then
      Except.ok { creds := c, ran_interactive_flow := false,
                  refreshed := false, wrote_token_file := false }
    else if c.expired && c.refresh_token then
      match env.refresh_result with
      | Except.error _ => Except.error AuthErr.refreshRejected
      | Except.ok c' =>
        Except.ok { creds := c', ran_interactive_flow := false,
                    refreshed := true, wrote_token_file := true }
    else newFlow env
  | none => newFlow env

/-- Model of `authenticate(credentials_file, token_file)`: load the pickled token if
the file exists (a malformed pickle raises, uncaught), then refresh / run the
interactive flow / return the cached credential. -/
def authenticate (env : AuthEnv) : Except AuthErr AuthResult :=
  if env.token_file_exists then
    match env.token_file_content with
    | LoadOutcome.corrupt => Except.error AuthErr.corruptToken
    | LoadOutcome.loaded c => authFromCreds env (some c)
  else authFromCreds env none

/-- Whether `authenticate` succeeded (no exception escaped it). -/
def authOk (env : AuthEnv) : Bool :=
  match authenticate env with
  | Except.ok _ => true
  | Except.error _ => false

/-- One listing entry: the `id`, `name`, `mimeType` fields requested from
`files().list`. -/
structure FileItem where
  id : String
  name : String
  mimeType : String
  deriving DecidableEq, Repr

/-- One page of listing results: the `files` array and the optional
`nextPageToken`. -/
structure Page where
  files : List FileItem
  nextPageToken : Option String
  deriving DecidableEq, Repr

/-- Outcome of one file's transfer attempt (the inner try block):
`failBeforeOpen` — `get_media` (or the `open` itself) raises, nothing touches
the disk; `failMidTransfer written` — the output file was opened (created /
truncated) and `written` is what had been flushed when `next_chunk` raised;
`ok content` — the chunk loop finished and the whole content is on disk. -/
inductive TransferOutcome where
  | failBeforeOpen
  | failMidTransfer (written : String)
  | ok (content : String)
  deriving DecidableEq, Repr

/-- Local disk: newest write first; lookup takes the most recent write. -/
abbrev Disk := List (String × String)

/-- Write (create or overwrite) a file. -/
def diskWrite (d : Disk) (p content : String) : Disk := (p, content) :: d

/-- Read a file: the most recent write to `p`, if any. -/
def diskGet (d : Disk) (p : String) : Option String :=
  (d.find? (fun e => e.1 == p)).map (fun e => e.2)

/-- Path join `os.path.join(save_dir, file_name)` for the non-degenerate case. -/
def os_path_join (dir name : String) : String := dir ++ "/" ++ name

/-- Python's `str.startswith`: prefix test on the character sequence. -/
def str_startswith (s pre : String) : Bool :=
  pre.toList.isPrefixOf s.toList

/-- The skip test `mime_type.startswith('application/vnd.google-apps')`. -/
def is_google_apps (item : FileItem) : Bool :=
  str_startswith item.mimeType "application/vnd.google-apps"

/-- Body of the `for item in items` loop for one entry: skip Google-native
types; otherwise attempt the transfer, counting only a completed one, and
leaving on disk whatever the attempt wrote before failing. -/
def processItem (transfer : FileItem → TransferOutcome) (save_dir : String)
    (acc : Disk × Nat) (item : FileItem) : Disk × Nat :=
  if is_google_apps item then acc
  else
    match transfer item with
    | TransferOutcome.failBeforeOpen => acc
    | TransferOutcome.failMidTransfer w =>
      (diskWrite acc.1 (os_path_join save_dir item.name) w, acc.2)
    | TransferOutcome.ok content =>
      (diskWrite acc.1 (os_path_join save_dir item.name) content, acc.2 + 1)

/-- The `while True` pagination loop of `download_all_files`, recursing over
the sequence of listing-call results. A listing call that raises is caught by
the outer `except`, which logs and breaks, returning the partial count; an
empty `files` array breaks before reading `nextPageToken`; a missing
`nextPageToken` breaks after the page is processed. The result is
`(file_count, disk)`. -/
def downloadLoop (transfer : FileItem → TransferOutcome) (save_dir : String) :
    List (Except Unit Page) → Disk → Nat → Nat × Disk
  | [], disk, count => (count, disk)
  | Except.error _ :: _, disk, count => (count, disk)
  | Except.ok page :: rest, disk, count =>
    if page.files.isEmpty then (count, disk)
    else
      let acc := page.files.foldl (processItem transfer save_dir) (disk, count)
      match page.nextPageToken with
      | none => (acc.2, acc.1)
      | some _ => downloadLoop transfer save_dir rest acc.1 acc.2

/-- Model of `download_all_files(service, save_dir, page_size)`: run the pagination
loop with `file_count = 0`, returning the final count and disk. -/
def download_all_files (transfer : FileItem → TransferOutcome)
    (save_dir : String) (pages : List (Except Unit Page)) (disk : Disk) :
    Nat × Disk :=
  downloadLoop transfer save_dir pages disk 0

/-- Observable outcome of `main`: process exit code, the count reported by
`download_all_files` (0 when it never ran), and the final disk. -/
structure RunResult where
  exitCode : Nat
  fileCount : Nat
  disk : Disk
  deriving DecidableEq, Repr

/-- Model of `main()` after argument parsing: `authenticate` then `download_all_files`
inside one try/except; any escaping exception logs and `exit(1)`, otherwise
the process ends normally (exit code 0). -/
def mainRun (env : AuthEnv) (transfer : FileItem → TransferOutcome)
    (pages : List (Except Unit Page)) (save_dir : String) (disk0 : Disk) :
    RunResult :=
  match authenticate env with
  | Except.error _ => { exitCode := 1, fileCount := 0, disk := disk0 }
  | Except.ok _ =>
    let r := download_all_files transfer save_dir pages disk0
    { exitCode := 0, fileCount := r.1, disk := r.2 }

/-! ### Derived notions and helper lemmas -/

/-- Whether this entry's transfer completes successfully: it is not skipped
as a provider-native document, and the transfer oracle reports completion. -/
def transferSucceeded (transfer : FileItem → TransferOutcome)
    (item : FileItem) : Bool :=
  !is_google_apps item &&
    (match transfer item with
     | TransferOutcome.ok _ => true
     | _ => false)

/-- The listing entries the pagination loop actually iterates over, page by
page, mirroring the loop's exit conditions (listing error, empty page,
missing continuation token). -/
def processedItems : List (Except Unit Page) → List FileItem
  | [] => []
  | Except.error _ :: _ => []
  | Except.ok page :: rest =>
    if page.files.isEmpty then []
    else
      page.files ++ (match page.nextPageToken with
        | none => []
        | some _ => processedItems rest)

lemma processItem_snd (t : FileItem → TransferOutcome) (s : String)
    (acc : Disk × Nat) (item : FileItem) :
    (processItem t s acc item).2
      = acc.2 + (if transferSucceeded t item then 1 else 0) := by
  unfold processItem transferSucceeded
  cases hg : is_google_apps item
  · cases ht : t item <;> simp [hg, ht]
  · simp [hg]

lemma foldl_processItem_snd (t : FileItem → TransferOutcome) (s : String)
    (items : List FileItem) :
    ∀ acc : Disk × Nat,
      (items.foldl (processItem t s) acc).2
        = acc.2 + (items.filter (transferSucceeded t)).length := by
  induction items with
  | nil => intro acc; simp
  | cons x xs ih =>
    intro acc
    rw [List.foldl_cons, ih (processItem t s acc x), processItem_snd,
      List.filter_cons]
    cases h : transferSucceeded t x <;> (simp [h]; try omega)

lemma downloadLoop_fst (t : FileItem → TransferOutcome) (s : String) :
    ∀ (pages : List (Except Unit Page)) (d : Disk) (c : Nat),
      (downloadLoop t s pages d c).1
        = c + ((processedItems pages).filter (transferSucceeded t)).length := by
  intro pages
  induction pages with
  | nil => intro d c; simp [downloadLoop, processedItems]
  | cons p rest ih =>
    intro d c
    match p with
    | Except.error e => simp [downloadLoop, processedItems]
    | Except.ok page =>
      simp only [downloadLoop, processedItems]
      cases hemp : page.files.isEmpty
      · cases htok : page.nextPageToken
        · simp [hemp, htok, foldl_processItem_snd]
        · simp [hemp, htok, ih, foldl_processItem_snd, List.filter_append]
          omega
      · simp [hemp]

lemma newFlow_wrote (env : AuthEnv) (r : AuthResult)
    (h : newFlow env = Except.ok r) :
    r.wrote_token_file = (r.refreshed || r.ran_interactive_flow) := by
  unfold newFlow at h
  split at h
  · exact Except.noConfusion h
  · injection h with h2
    subst h2
    rfl

lemma authFromCreds_wrote (env : AuthEnv) (co : Option Credential)
    (r : AuthResult) (h : authFromCreds env co = Except.ok r) :
    r.wrote_token_file = (r.refreshed || r.ran_interactive_flow) := by
  cases co with
  | none =>
    simp only [authFromCreds] at h
    exact newFlow_wrote env r h
  | some c =>
    simp only [authFromCreds] at h
    split at h
    · injection h with h2
      subst h2
      rfl
    · split at h
      · cases hr : env.refresh_result with
        | error u => simp [hr] at h
        | ok c' =>
          simp only [hr] at h
          injection h with h2
          subst h2
          rfl
      · exact newFlow_wrote env r h

lemma authenticate_wrote (env : AuthEnv) (r : AuthResult)
    (h : authenticate env = Except.ok r) :
    r.wrote_token_file = (r.refreshed || r.ran_interactive_flow) := by
  unfold authenticate at h
  split at h
  · split at h
    · exact Except.noConfusion h
    · exact authFromCreds_wrote env _ r h
  · exact authFromCreds_wrote env none r h

/-! ### Concrete inputs used by witnesses and counterexamples -/

/-- A valid, unexpired cached credential. -/
def validCred : Credential :=
  { valid := true, expired := false, refresh_token := true, tag := 1 }

/-- An expired credential that still carries a refresh token. -/
def expiredCred : Credential :=
  { valid := false, expired := true, refresh_token := true, tag := 2 }

/-- An environment whose token store holds a valid cached credential. -/
def envCached : AuthEnv :=
  { token_file_exists := true, token_file_content := LoadOutcome.loaded validCred,
    credentials_file_exists := true, refresh_result := Except.error (),
    flow_result := validCred }

/-- An environment whose token store is malformed. -/
def envCorrupt : AuthEnv :=
  { token_file_exists := true, token_file_content := LoadOutcome.corrupt,
    credentials_file_exists := true, refresh_result := Except.error (),
    flow_result := validCred }

/-- An environment with an expired refreshable credential whose refresh
exchange the provider rejects; the client-secret file is present. -/
def envRefreshRejected : AuthEnv :=
  { token_file_exists := true, token_file_content := LoadOutcome.loaded expiredCred,
    credentials_file_exists := true, refresh_result := Except.error (),
    flow_result := validCred }

/-- An environment with an expired refreshable credential, an accepting
provider, and no client-secret file. -/
def envRefreshNoSecret : AuthEnv :=
  { token_file_exists := true, token_file_content := LoadOutcome.loaded expiredCred,
    credentials_file_exists := false, refresh_result := Except.ok validCred,
    flow_result := validCred }

/-- An environment with neither a token store nor a client-secret file. -/
def envNothing : AuthEnv :=
  { token_file_exists := false, token_file_content := LoadOutcome.corrupt,
    credentials_file_exists := false, refresh_result := Except.error (),
    flow_result := validCred }

/-- A non-native listing entry. -/
def pdfItem : FileItem :=
  { id := "f1", name := "report.pdf", mimeType := "application/pdf" }

/-- A provider-native listing entry. -/
def docItem : FileItem :=
  { id := "f2", name := "notes", mimeType := "application/vnd.google-apps.document" }

/-- A transfer oracle for which every attempt completes. -/
def tOk : FileItem → TransferOutcome := fun _ => TransferOutcome.ok "data"

/-- A transfer oracle for which every attempt fails before the output file
is opened. -/
def tFailEarly : FileItem → TransferOutcome := fun _ => TransferOutcome.failBeforeOpen

/-- A transfer oracle for which every attempt opens the output file and then
fails before any chunk is flushed. -/
def tMidFail : FileItem → TransferOutcome := fun _ => TransferOutcome.failMidTransfer ""

/-! ### Claim theorems -/

set_option maxRecDepth 4000

/-- C1 counterexample: with a valid cached token, a run whose very first
listing call errors still exits with code 0, not 1 — the listing failure is
caught inside `download_all_files`, so a first-page listing failure is not
fatal at the CLI level, contrary to the claim's final clause. -/
theorem C1_counterexample :
    (mainRun envCached tFailEarly [Except.error ()] "drive_download" []).exitCode = 0 ∧
    (mainRun envCached tFailEarly [Except.error ()] "drive_download" []).exitCode ≠ 1 := by
  exact ⟨rfl, by decide⟩

/-- C1 (amended): if a listing-fetch call errors on any page, the pagination
loop aborts at that point and returns the partial count accumulated so far,
and the process exits with code 0 whenever authentication succeeded — a
listing failure, even on the very first call, is never fatal at the CLI
level. -/
theorem C1_listing_error_aborts_with_exit0
    (env : AuthEnv) (t : FileItem → TransferOutcome) (s : String)
    (pages rest : List (Except Unit Page)) (d0 d : Disk) (c : Nat) (e : Unit)
    (h : authOk env = true) :
    downloadLoop t s (Except.error e :: rest) d c = (c, d) ∧
    (mainRun env t pages s d0).exitCode = 0 := by
  constructor
  · rfl
  · unfold mainRun
    unfold authOk at h
    cases ha : authenticate env with
    | ok r => simp [ha]
    | error err => rw [ha] at h; simp at h

/-- C1 witness: concrete instantiation of the amended theorem at a cached
valid token, five files already counted, and a failing listing call. -/
theorem C1_witness :
    authOk envCached = true ∧
    (downloadLoop tFailEarly "drive_download" [Except.error ()] [] 5 = (5, []) ∧
     (mainRun envCached tFailEarly [Except.error ()] "drive_download" []).exitCode = 0) :=
  ⟨by decide,
   C1_listing_error_aborts_with_exit0 envCached tFailEarly "drive_download"
     [Except.error ()] [] [] [] 5 () (by decide)⟩

/-- C2: `download_all_files` never fails as a whole on a per-file error —
for every transfer oracle, including ones that fail on arbitrary entries, the
loop runs to its pagination-determined end and the returned count equals
exactly the number of iterated entries that are not skipped as
provider-native and whose transfer completed; skipped and failed entries are
not counted. -/
theorem C2_count_is_exactly_successful_transfers
    (t : FileItem → TransferOutcome) (s : String)
    (pages : List (Except Unit Page)) (d : Disk) :
    (download_all_files t s pages d).1
      = ((processedItems pages).filter (transferSucceeded t)).length := by
  unfold download_all_files
  simpa using downloadLoop_fst t s pages d 0

/-- C3 counterexample: with a malformed token store, `authenticate` raises
(`pickle.load` is not wrapped in any try/except) instead of falling through
to re-authentication, and the run exits with code 1. -/
theorem C3_counterexample :
    authenticate envCorrupt = Except.error AuthErr.corruptToken ∧
    authOk envCorrupt = false ∧
    (mainRun envCorrupt tOk [] "drive_download" []).exitCode = 1 :=
  ⟨rfl, rfl, rfl⟩

/-- C3 (amended): for every token-store file with malformed content,
`authenticate` propagates the deserialization failure to the caller — it does
not fall through to re-authentication — and the run aborts with exit code 1,
no files downloaded and the disk untouched. -/
theorem C3_corrupt_token_store_propagates
    (env : AuthEnv) (t : FileItem → TransferOutcome)
    (pages : List (Except Unit Page)) (s : String) (d0 : Disk)
    (h1 : env.token_file_exists = true)
    (h2 : env.token_file_content = LoadOutcome.corrupt) :
    authenticate env = Except.error AuthErr.corruptToken ∧
    mainRun env t pages s d0 = { exitCode := 1, fileCount := 0, disk := d0 } := by
  have ha : authenticate env = Except.error AuthErr.corruptToken := by
    unfold authenticate
    simp [h1, h2]
  refine ⟨ha, ?_⟩
  unfold mainRun
  rw [ha]

/-- C3 witness: concrete instantiation of the amended theorem at a malformed
token store. -/
theorem C3_witness :
    envCorrupt.token_file_exists = true ∧
    envCorrupt.token_file_content = LoadOutcome.corrupt ∧
    (authenticate envCorrupt = Except.error AuthErr.corruptToken ∧
     mainRun envCorrupt tOk [] "drive_download" []
       = { exitCode := 1, fileCount := 0, disk := [] }) :=
  ⟨rfl, rfl,
   C3_corrupt_token_store_propagates envCorrupt tOk [] "drive_download" [] rfl rfl⟩

/-- C4 counterexample: an expired credential with a refresh token whose
refresh exchange the provider rejects makes `authenticate` raise
(`creds.refresh(Request())` has no surrounding try/except and no fallback),
so the run exits 1 — the interactive flow is not used even though the
client-secret file is present. -/
theorem C4_counterexample :
    authenticate envRefreshRejected = Except.error AuthErr.refreshRejected ∧
    (mainRun envRefreshRejected tOk [] "drive_download" []).exitCode = 1 :=
  ⟨rfl, rfl⟩

/-- C4 (amended): for every cached credential that is expired but holds a
refresh token, if the provider rejects the refresh exchange, `authenticate`
propagates the refresh failure — it does not fall back to the interactive
authorization flow — and the run fails with exit code 1. -/
theorem C4_refresh_rejection_is_fatal
    (env : AuthEnv) (c : Credential) (t : FileItem → TransferOutcome)
    (pages : List (Except Unit Page)) (s : String) (d0 : Disk)
    (h1 : env.token_file_exists = true)
    (h2 : env.token_file_content = LoadOutcome.loaded c)
    (h3 : c.valid = false) (h4 : c.expired = true) (h5 : c.refresh_token = true)
    (h6 : env.refresh_result = Except.error ()) :
    authenticate env = Except.error AuthErr.refreshRejected ∧
    mainRun env t pages s d0 = { exitCode := 1, fileCount := 0, disk := d0 } := by
  have ha : authenticate env = Except.error AuthErr.refreshRejected := by
    unfold authenticate
    simp [h1, h2, authFromCreds, h3, h4, h5, h6]
  refine ⟨ha, ?_⟩
  unfold mainRun
  rw [ha]

/-- C4 witness: concrete instantiation of the amended theorem at an expired
refreshable credential and a rejecting provider. -/
theorem C4_witness :
    expiredCred.valid = false ∧ expiredCred.expired = true ∧
    expiredCred.refresh_token = true ∧
    (authenticate envRefreshRejected = Except.error AuthErr.refreshRejected ∧
     mainRun envRefreshRejected tOk [] "drive_download" []
       = { exitCode := 1, fileCount := 0, disk := [] }) :=
  ⟨rfl, rfl, rfl,
   C4_refresh_rejection_is_fatal envRefreshRejected expiredCred tOk []
     "drive_download" [] rfl rfl rfl rfl rfl rfl⟩

/-- C5: every listing entry whose content-type classifier starts with the
provider-native prefix is skipped — processing it leaves the disk and the
running count exactly as they were (no file for it is written), and it can
never be one of the counted successful transfers. -/
theorem C5_native_prefix_entries_skipped
    (t : FileItem → TransferOutcome) (s : String) (d : Disk) (c : Nat)
    (item : FileItem)
    (h : str_startswith item.mimeType "application/vnd.google-apps" = true) :
    processItem t s (d, c) item = (d, c) ∧ transferSucceeded t item = false := by
  have hg : is_google_apps item = true := h
  constructor
  · simp [processItem, hg]
  · simp [transferSucceeded, hg]

/-- C5 witness: concrete instantiation at a Google-native document entry. -/
theorem C5_witness :
    str_startswith docItem.mimeType "application/vnd.google-apps" = true ∧
    (processItem tOk "drive_download" ([], 0) docItem = ([], 0) ∧
     transferSucceeded tOk docItem = false) :=
  ⟨by decide,
   C5_native_prefix_entries_skipped tOk "drive_download" [] 0 docItem (by decide)⟩

/-- C6 counterexample: a non-native entry whose transfer fails right after
the output file is opened leaves a file named after its display name on disk
(here with empty content) — the output handle is opened with `open(path,'wb')`
before any chunk is fetched and nothing deletes the file on failure — so the
download result of a failed attempt is not always absence. -/
theorem C6_counterexample :
    is_google_apps pdfItem = false ∧
    tMidFail pdfItem = TransferOutcome.failMidTransfer "" ∧
    diskGet (processItem tMidFail "drive_download" ([], 0) pdfItem).1
      (os_path_join "drive_download" pdfItem.name) = some "" ∧
    (processItem tMidFail "drive_download" ([], 0) pdfItem).2 = 0 :=
  ⟨by decide, rfl, by decide, rfl⟩

/-- C6 (amended): a skipped entry, or an entry whose transfer fails before
its output file is opened, leaves the save directory unchanged; an entry
whose transfer fails after the output file was opened leaves a file named
after its display name on disk holding whatever was flushed before the
failure (possibly nothing); in every failure case the count is unchanged. -/
theorem C6_failed_attempt_disk_effect
    (t : FileItem → TransferOutcome) (s : String) (d : Disk) (c : Nat)
    (item : FileItem) :
    (is_google_apps item = true → processItem t s (d, c) item = (d, c)) ∧
    (t item = TransferOutcome.failBeforeOpen →
      processItem t s (d, c) item = (d, c)) ∧
    (∀ w, is_google_apps item = false →
      t item = TransferOutcome.failMidTransfer w →
      processItem t s (d, c) item
        = (diskWrite d (os_path_join s item.name) w, c)) := by
  refine ⟨fun hg => ?_, fun ht => ?_, fun w hg ht => ?_⟩
  · simp [processItem, hg]
  · unfold processItem
    cases hg : is_google_apps item
    · simp [ht]
    · simp
  · simp [processItem, hg, ht]

/-- C6 witness: concrete instantiation of the mid-transfer-failure case of
the amended theorem. -/
theorem C6_witness :
    processItem tMidFail "drive_download" ([], 0) pdfItem
      = (diskWrite [] (os_path_join "drive_download" pdfItem.name) "", 0) :=
  (C6_failed_attempt_disk_effect tMidFail "drive_download" [] 0 pdfItem).2.2 ""
    (by decide) rfl

/-- C7: a valid, unexpired cached credential is returned as-is — no
interactive flow runs and the token store is not rewritten — and in every
successful authentication the token store is written exactly when the
credential was refreshed or newly acquired through the interactive flow. -/
theorem C7_valid_cached_token_frame :
    (∀ (env : AuthEnv) (c : Credential),
        env.token_file_exists = true →
        env.token_file_content = LoadOutcome.loaded c →
        c.valid = true →
        authenticate env = Except.ok
          { creds := c, ran_interactive_flow := false,
            refreshed := false, wrote_token_file := false }) ∧
    (∀ (env : AuthEnv) (r : AuthResult),
        authenticate env = Except.ok r →
        r.wrote_token_file = (r.refreshed || r.ran_interactive_flow)) := by
  constructor
  · intro env c h1 h2 h3
    unfold authenticate
    simp [h1, h2, authFromCreds, h3]
  · intro env r h
    exact authenticate_wrote env r h

/-- C7 witness: concrete instantiation of the no-rewrite part at a valid
cached credential. -/
theorem C7_witness :
    authenticate envCached = Except.ok
      { creds := validCred, ran_interactive_flow := false,
        refreshed := false, wrote_token_file := false } :=
  C7_valid_cached_token_frame.1 envCached validCred rfl rfl rfl

/-- C8: with no token store and no client-secret file, authentication raises
the file-not-found error, so the run aborts with exit code 1, reports zero
files, and leaves the disk untouched. -/
theorem C8_missing_token_and_secret_aborts
    (env : AuthEnv) (t : FileItem → TransferOutcome)
    (pages : List (Except Unit Page)) (s : String) (d0 : Disk)
    (h1 : env.token_file_exists = false)
    (h2 : env.credentials_file_exists = false) :
    authenticate env = Except.error AuthErr.credentialsFileNotFound ∧
    mainRun env t pages s d0 = { exitCode := 1, fileCount := 0, disk := d0 } := by
  have ha : authenticate env = Except.error AuthErr.credentialsFileNotFound := by
    unfold authenticate
    simp [h1, authFromCreds, newFlow, h2]
  refine ⟨ha, ?_⟩
  unfold mainRun
  rw [ha]

/-- C8 witness: concrete instantiation with both files absent. -/
theorem C8_witness :
    envNothing.token_file_exists = false ∧
    envNothing.credentials_file_exists = false ∧
    (authenticate envNothing = Except.error AuthErr.credentialsFileNotFound ∧
     mainRun envNothing tOk [Except.ok { files := [pdfItem], nextPageToken := none }]
       "drive_download" [] = { exitCode := 1, fileCount := 0, disk := [] }) :=
  ⟨rfl, rfl,
   C8_missing_token_and_secret_aborts envNothing tOk
     [Except.ok { files := [pdfItem], nextPageToken := none }]
     "drive_download" [] rfl rfl⟩

/-- C9: an expired cached credential with a refresh token that the provider
accepts authenticates successfully even when the client-secret file is
absent — the existence check on the client-secret file sits only on the
interactive-flow branch, which the refresh path never reaches. -/
theorem C9_refresh_skips_secret_check
    (env : AuthEnv) (c c' : Credential)
    (h1 : env.token_file_exists = true)
    (h2 : env.token_file_content = LoadOutcome.loaded c)
    (h3 : c.valid = false) (h4 : c.expired = true) (h5 : c.refresh_token = true)
    (h6 : env.refresh_result = Except.ok c')
    (_h7 : env.credentials_file_exists = false) :
    authenticate env = Except.ok
      { creds := c', ran_interactive_flow := false,
        refreshed := true, wrote_token_file := true } := by
  unfold authenticate
  simp [h1, h2, authFromCreds, h3, h4, h5, h6]

/-- C9 witness: concrete instantiation with an accepting provider and no
client-secret file. -/
theorem C9_witness :
    envRefreshNoSecret.credentials_file_exists = false ∧
    authenticate envRefreshNoSecret = Except.ok
      { creds := validCred, ran_interactive_flow := false,
        refreshed := true, wrote_token_file := true } :=
  ⟨rfl,
   C9_refresh_skips_secret_check envRefreshNoSecret expiredCred validCred
     rfl rfl rfl rfl rfl rfl rfl⟩

/-- C10: a fetched page whose `files` array is empty ends the pagination loop
immediately with the count accumulated so far, even when that page carries a
continuation token and further pages would have been available — the
emptiness check precedes the read of `nextPageToken`. -/
theorem C10_empty_page_ends_loop_despite_token
    (t : FileItem → TransferOutcome) (s : String) (page : Page)
    (rest : List (Except Unit Page)) (d : Disk) (c : Nat)
    (h : page.files = []) :
    downloadLoop t s (Except.ok page :: rest) d c = (c, d) := by
  unfold downloadLoop
  simp [h]

/-- C10 witness: concrete instantiation at an empty page that carries a
continuation token, with a nonempty page still pending behind it. -/
theorem C10_witness :
    ({ files := [], nextPageToken := some "t2" } : Page).files = [] ∧
    downloadLoop tOk "drive_download"
      [Except.ok { files := [], nextPageToken := some "t2" },
       Except.ok { files := [pdfItem], nextPageToken := none }] [] 3 = (3, []) :=
  ⟨rfl,
   C10_empty_page_ends_loop_despite_token tOk "drive_download"
     { files := [], nextPageToken := some "t2" }
     [Except.ok { files := [pdfItem], nextPageToken := none }] [] 3 rfl⟩

end DriveDownloader
